import Mathlib

/-!
# Verification of the txboto request execution engine

Shallow embedding of the retrying HTTP execution loop
(`txboto/connection.py`, `AWSAuthConnection._mexe`), the DynamoDB
response classifier (`txboto/dynamodb/layer1.py`, `Layer1._retry_handler`
and `Layer1._exponential_time`), the request authorization step
(`txboto/base/__init__.py`, `HTTPRequest.authorize`) and the
`Layer1.batch_get_item` early-return path.

Python floats are modelled as rationals (`Rat`), byte strings as
`List Nat`, and the `random.random()` draw of each loop iteration as an
explicit parameter.  Stateful code (the `throughput_exceeded_events`
counter, provider renewal) is modelled by explicit state passing.
-/

namespace TxBoto

/-- `Layer1.ThruputError`: the error response returned when provisioned
throughput is exceeded (layer1.py line 69). -/
def ThruputError : String := "ProvisionedThroughputExceededException"

/-- `Layer1.SessionExpiredError` (layer1.py line 72). -/
def SessionExpiredError : String := "com.amazon.coral.service#ExpiredTokenException"

/-- `Layer1.ConditionalCheckFailedError` (layer1.py line 75). -/
def ConditionalCheckFailedError : String := "ConditionalCheckFailedException"

/-- `Layer1.ValidationError` (layer1.py line 78). -/
def ValidationError : String := "ValidationException"

/-- `Layer1.NumberRetries` (layer1.py line 83): the number of times an
error is retried, passed to `_mexe` as `override_num_retries`. -/
def NumberRetries : Nat := 10

/-- `AWSAuthConnection.__init__` sets `self.num_retries = 6`
(connection.py line 156); `Layer1` inherits this attribute. -/
def defaultNumRetries : Nat := 6

/-- Default of `config.get('TxBoto', 'max_retry_delay', 60)`
(connection.py line 365, layer1.py line 189). -/
def defaultMaxRetryDelay : Rat := 60

/-- Python's `needle in haystack` substring test on strings, used by
`_retry_handler` to match the `__type` discriminator. -/
def substrIn (needle haystack : String) : Bool :=
  (List.range (haystack.data.length + 1)).any fun k =>
    needle.data.isPrefixOf (haystack.data.drop k)

/-- Backoff of `_mexe` (connection.py lines 364-365):
`next_sleep = min(random.random() * (2 ** i), max_retry_delay)` where
`r` stands for the `random.random()` draw of this iteration. -/
def nextSleep (r : Rat) (maxRetryDelay : Rat) (i : Nat) : Rat :=
  min (r * 2 ^ i) maxRetryDelay

/-- `Layer1._exponential_time` (layer1.py lines 184-190):
`0` when `i == 0`, otherwise `min(0.05 * 2 ** i, max_retry_delay)`. -/
def exponentialTime (maxRetryDelay : Rat) (i : Nat) : Rat :=
  if i = 0 then 0
  else min ((1 / 20 : Rat) * 2 ^ i) maxRetryDelay

/-- One step of the CRC-32 calculation (`binascii.crc32`, IEEE
polynomial 0xEDB88320, reflected). -/
def crc32step (crc b : Nat) : Nat :=
  Nat.rec (crc ^^^ b % 256) (fun _ c => if c % 2 = 1 then c / 2 ^^^ 0xEDB88320 else c / 2) 8

/-- `binascii.crc32(data)` on a byte sequence (layer1.py line 176). -/
def crc32 (data : List Nat) : Nat :=
  (data.foldl crc32step 0xFFFFFFFF) ^^^ 0xFFFFFFFF

/-- `crc32(response.read()) & 0xffffffff` (layer1.py line 176): the
body's CRC-32 masked to 32 bits. -/
def actualCrc32 (body : List Nat) : Nat :=
  crc32 body % 2 ^ 32

/-- The HTTP response as consumed by the retry loop and the DynamoDB
retry handler.  `code` is the twisted response's `.code` (tested against
the retryable 5xx set), `status` its `.status` attribute (used when
raising `BotoServerError` and by `_retry_handler`), `location` the
`Location` header, `crcHeader` the parsed `x-amz-crc32` header,
`bodyBytes` the bytes returned by `response.read()` and `dunderType`
the `__type` field of the JSON-decoded body (`none` when absent);
the JSON decoding itself (`json.loads`) is treated as an external
collaborator. -/
structure Response where
  code : Nat
  status : Nat
  reason : String
  location : Option String
  crcHeader : Option Int
  bodyBytes : List Nat
  dunderType : Option String
  deriving Repr, DecidableEq

/-- The per-connection mutable state touched by `Layer1._retry_handler`:
the `throughput_exceeded_events` counter (layer1.py line 148) and the
effects of `_get_session_token` (layer1.py lines 110-112), namely
re-deriving `self.provider` and calling
`self._auth_handler.update_provider`. -/
structure Layer1State where
  throughputExceededEvents : Nat
  providerRenewed : Bool
  authHandlerUpdated : Bool
  deriving Repr, DecidableEq

/-- Outcome of one `_retry_handler` invocation: either it returns a
`status` value (`none` for Python `None`, or a `(msg, i, next_sleep)`
triple), or it raises one of the typed errors, or it hits the Python
`TypeError` from `self.ThruputError in None` when the body has no
`__type` field. -/
inductive HandlerAction where
  | ret (st : Option (String × Nat × Rat))
  | throughputExceededError (status : Nat) (reason : String)
  | conditionalCheckFailedError (status : Nat) (reason : String)
  | validationError (status : Nat) (reason : String)
  | responseError (status : Nat) (reason : String)
  | typeError
  deriving Repr, DecidableEq

/-- `Layer1._retry_handler` (layer1.py lines 141-182).
`validateChecksums` is `self._validate_checksums`, `maxRetryDelay` the
configured `max_retry_delay`, `numRetriesAttr` the inherited
`self.num_retries` attribute (6).  The Python local variable `i` is
mutated by the throughput branch (`i += 1`, line 151) before the
checksum block at lines 172-181 reads it, so the 400 block below
yields, besides the pending `status`, the current value of the local
`i` that the checksum block consumes (the session branch leaves the
local `i` untouched). -/
def retryHandler (validateChecksums : Bool) (maxRetryDelay : Rat)
    (numRetriesAttr : Nat) (st : Layer1State) (response : Response)
    (i : Nat) (_nextSleepArg : Rat) : HandlerAction × Layer1State :=
  let block400 :
      (HandlerAction ⊕ (Option (String × Nat × Rat) × Nat)) × Layer1State :=
    if response.status = 400 then
      match response.dunderType with
      | none => (Sum.inl .typeError, st)
      | some dt =>
        if substrIn ThruputError dt then
          let st' := { st with
            throughputExceededEvents := st.throughputExceededEvents + 1 }
          let msg := s!"{ThruputError}, retry attempt {i}"
          let ns := exponentialTime maxRetryDelay i
          let i' := i + 1
          if i' = NumberRetries then
            (Sum.inl (.throughputExceededError response.status response.reason), st')
          else
            (Sum.inr (some (msg, i', ns), i'), st')
        else if substrIn SessionExpiredError dt then
          let st' := { st with providerRenewed := true, authHandlerUpdated := true }
          (Sum.inr (some ("Renewing Session Token", i + numRetriesAttr - 1, 0), i), st')
        else if substrIn ConditionalCheckFailedError dt then
          (Sum.inl (.conditionalCheckFailedError response.status response.reason), st)
        else if substrIn ValidationError dt then
          (Sum.inl (.validationError response.status response.reason), st)
        else
          (Sum.inl (.responseError response.status response.reason), st)
    else
      (Sum.inr (none, i), st)
  match block400 with
  | (Sum.inl act, st') => (act, st')
  | (Sum.inr (status0, iLoc), st') =>
    match response.crcHeader with
    | some expected =>
      if validateChecksums then
        let actual : Int := (actualCrc32 response.bodyBytes : Int)
        if actual ≠ expected then
          (.ret (some (s!"The calculated checksum {actual} did not match the expected checksum {expected}",
                       iLoc + 1, exponentialTime maxRetryDelay iLoc)), st')
        else (.ret status0, st')
      else (.ret status0, st')
    | none => (.ret status0, st')

/-- Whether the checksum block of `_retry_handler` (layer1.py lines
172-181) fires and overrides the pending status: validation enabled,
an `x-amz-crc32` header present, and the body's masked CRC-32
differing from it. -/
def crcOverride (validateChecksums : Bool) (response : Response) : Bool :=
  match response.crcHeader with
  | some expected =>
    validateChecksums && !((actualCrc32 response.bodyBytes : Int) == expected)
  | none => false

/-- The transport exception classes of `AWSBaseConnection.__init__`
(base/__init__.py lines 179-190): `self.http_exceptions` lists the
caught classes; `SSL.Error`, `error.CertificateError` and
`error.VerifyError` are the subclasses declared not retryable in
`self.http_unretryable_exceptions`. -/
inductive TransportExnKind where
  | connectError
  | webError
  | connectionDone
  | connectionLost
  | connectionRefusedError
  | connectingCancelledError
  | timeoutError
  | responseFailed
  | requestTransmissionFailed
  | responseNeverReceived
  | sslError
  | certificateError
  | verifyError
  deriving Repr, DecidableEq

/-- `isinstance(e, self.http_unretryable_exceptions)`
(connection.py line 413, base/__init__.py lines 188-190). -/
def TransportExnKind.isUnretryable : TransportExnKind → Bool
  | .sslError => true
  | .certificateError => true
  | .verifyError => true
  | _ => false

/-- What one `send_request`/`content()` round trip yields inside the
try block of `_mexe`: either a response together with its body, or a
transport exception from the `self.http_exceptions` family. -/
inductive SendOutcome where
  | resp (r : Response) (body : String)
  | exn (e : TransportExnKind)
  deriving Repr, DecidableEq

/-- Terminal outcome of `_mexe`, each carrying the number of
authorize-and-send attempts performed.
`success` is `defer.returnValue((response, response_body))`;
`unretryableRaised` the bare `raise` of an unretryable transport
exception (connection.py line 416); `handlerRaised` an exception
raised by the `retry_handler` callback propagating out of the loop;
`serverError` is `raise BotoServerError(response.status,
response.reason, body)` after exhaustion; `transportRaised` is
`raise ex` after exhaustion; `clientError` the defensive
`raise BotoClientError(...)`; `diverged` marks fuel exhaustion of the
embedding (the source loop not having terminated within the given
fuel). -/
inductive MexeResult where
  | success (r : Response) (body : String) (attempts : Nat)
  | unretryableRaised (e : TransportExnKind) (attempts : Nat)
  | handlerRaised (a : HandlerAction) (attempts : Nat)
  | serverError (status : Nat) (reason : String) (body : Option String) (attempts : Nat)
  | transportRaised (e : TransportExnKind) (attempts : Nat)
  | clientError (attempts : Nat)
  | diverged (attempts : Nat)
  deriving Repr, DecidableEq

/-- The attempt count carried by a `MexeResult`. -/
def MexeResult.attempts : MexeResult → Nat
  | .success _ _ a => a
  | .unretryableRaised _ a => a
  | .handlerRaised _ a => a
  | .serverError _ _ _ a => a
  | .transportRaised _ a => a
  | .clientError a => a
  | .diverged a => a

/-- A retry-handler callback as `_mexe` invokes it
(`retry_handler(response, response_body, i, next_sleep)`,
connection.py lines 379-381), with its mutable connection state made
explicit. -/
abbrev RetryHandlerFn (σ : Type) :=
  σ → Response → String → Nat → Rat → HandlerAction × σ

/-- The code after the while loop of `_mexe` (connection.py lines
423-438): if a response object is held, raise
`BotoServerError(response.status, response.reason, body)`; else if a
transport exception was captured, re-raise it; else raise
`BotoClientError`.  `response.reason` was set to
`code2status(response.code, 'N/A')` (line 373) on the iteration that
recorded the response. -/
def mexeExhaust (code2status : Nat → String) (resp : Option Response)
    (body : Option String) (ex : Option TransportExnKind)
    (attempts : Nat) : MexeResult :=
  match resp with
  | some r => .serverError r.status (code2status r.code) body attempts
  | none =>
    match ex with
    | some e => .transportRaised e attempts
    | none => .clientError attempts

/-- The while loop of `_mexe` (connection.py lines 361-421), one
constructor-level step per iteration.  `world j` is the outcome of the
network send of the iteration with loop counter `j`; `rand j` the
`random.random()` draw of that iteration; `handler` the optional
`retry_handler` callback threading its state `hst`; `fuel` bounds the
number of iterations of the embedding (the handler may move the loop
counter arbitrarily). -/
def mexeGo {σ : Type} (code2status : Nat → String)
    (world : Nat → SendOutcome) (rand : Nat → Rat) (maxRetryDelay : Rat)
    (handler : Option (RetryHandlerFn σ)) (numRetries : Nat)
    (fuel i : Nat) (hst : σ) (resp : Option Response)
    (body : Option String) (ex : Option TransportExnKind)
    (attempts : Nat) : MexeResult :=
  if i ≤ numRetries then
    match fuel with
    | 0 => .diverged attempts
    | fuel + 1 =>
      let ns := nextSleep (rand i) maxRetryDelay i
      match world i with
      | .exn e =>
        if e.isUnretryable then .unretryableRaised e (attempts + 1)
        else
          mexeGo code2status world rand maxRetryDelay handler numRetries
            fuel (i + 1) hst resp body (some e) (attempts + 1)
      | .resp r b =>
        -- line 371: `response = yield self.send_request(request)`
        let resp' := some r
        let afterHandler : Option (HandlerAction × σ) :=
          match handler with
          | some h => some (h hst r b i ns)
          | none => none
        match afterHandler with
        | some (.ret (some (_msg, i', _ns')), hst') =>
          mexeGo code2status world rand maxRetryDelay handler numRetries
            fuel i' hst' resp' body ex (attempts + 1)
        | some (.ret none, hst') =>
          -- default policy, lines 388-407, with handler state updated
          if r.code = 500 ∨ r.code = 502 ∨ r.code = 503 ∨ r.code = 504 then
            mexeGo code2status world rand maxRetryDelay handler numRetries
              fuel (i + 1) hst' resp' (some b) ex (attempts + 1)
          else if r.code < 300 ∨ 400 ≤ r.code ∨ r.location = none then
            .success r b (attempts + 1)
          else
            mexeGo code2status world rand maxRetryDelay handler numRetries
              fuel (i + 1) hst' resp' body ex (attempts + 1)
        | some (act, _) => .handlerRaised act (attempts + 1)
        | none =>
          -- default policy, lines 388-407 (no retry handler supplied)
          if r.code = 500 ∨ r.code = 502 ∨ r.code = 503 ∨ r.code = 504 then
            mexeGo code2status world rand maxRetryDelay handler numRetries
              fuel (i + 1) hst resp' (some b) ex (attempts + 1)
          else if r.code < 300 ∨ 400 ≤ r.code ∨ r.location = none then
            .success r b (attempts + 1)
          else
            mexeGo code2status world rand maxRetryDelay handler numRetries
              fuel (i + 1) hst resp' body ex (attempts + 1)
  else mexeExhaust code2status resp body ex attempts

/-- `_mexe` without a `retry_handler` (the `retry_handler=None` path),
run with enough fuel for its `numRetries + 1` iterations. -/
def mexe (code2status : Nat → String) (world : Nat → SendOutcome)
    (rand : Nat → Rat) (maxRetryDelay : Rat) (numRetries : Nat) : MexeResult :=
  mexeGo (σ := Unit) code2status world rand maxRetryDelay none numRetries
    (numRetries + 1) 0 () none none none 0

/-- `_mexe` with a `retry_handler` callback (as `Layer1.make_request`
passes `self._retry_handler`), run with fuel `numRetries + 1`. -/
def mexeH {σ : Type} (code2status : Nat → String)
    (world : Nat → SendOutcome) (rand : Nat → Rat) (maxRetryDelay : Rat)
    (handler : RetryHandlerFn σ) (hst : σ) (numRetries : Nat) : MexeResult :=
  mexeGo code2status world rand maxRetryDelay (some handler) numRetries
    (numRetries + 1) 0 hst none none none 0

/-! ## HTTPRequest.authorize (base/__init__.py lines 125-143) -/

/-- The bytes of the `safe` string passed to `quote` in
`HTTPRequest.authorize` (base/__init__.py line 130), namely
`! " # $ % & ' ( ) * + , / : ; < = > ? @ [ \ ] ^ grave-accent
left-brace vertical-bar right-brace tilde`. -/
def headerSafe : List Nat :=
  [33, 34, 35, 36, 37, 38, 39, 40, 41, 42, 43, 44, 47, 58, 59, 60,
   61, 62, 63, 64, 91, 92, 93, 94, 96, 123, 124, 125, 126]

/-- `urllib.parse.quote`'s always-safe bytes: ASCII letters, digits and
`_ . - ~`. -/
def isAlwaysSafeByte (b : Nat) : Bool :=
  (65 ≤ b && b ≤ 90) || (97 ≤ b && b ≤ 122) || (48 ≤ b && b ≤ 57) ||
    b == 95 || b == 46 || b == 45 || b == 126

/-- Upper-case hex digit byte of a value `< 16`, as `quote` emits in
`%XX` escapes. -/
def hexDigitByte (n : Nat) : Nat :=
  if n < 10 then 48 + n else 55 + n

/-- `urllib.parse.quote(bytes, safe)` on a byte sequence: each byte that
is neither always-safe nor in `safe` becomes a `%XX` escape. -/
def quoteBytes (safe : List Nat) (bs : List Nat) : List Nat :=
  (bs.map fun b =>
    if isAlwaysSafeByte b || safe.contains b then [b]
    else [37, hexDigitByte (b / 16), hexDigitByte (b % 16)]).flatten

/-- The `HTTPRequest` fields `authorize` touches.  Header values are
byte sequences (the source quotes `val.encode('utf-8')`);
`headersQuoted` models the `_headers_quoted` attribute, which is absent
(`getattr` default `False`) on a freshly built request. -/
structure HTTPRequestL where
  method : String
  headers : List (String × List Nat)
  headersQuoted : Bool
  body : List Nat
  deriving Repr, DecidableEq

/-- Python dict lookup `headers[k]` / `k in headers` on the modelled
header association list (keys are unique, as in a dict). -/
def lookupHeader : List (String × List Nat) → String → Option (List Nat)
  | [], _ => none
  | kv :: rest, k => if kv.1 = k then some kv.2 else lookupHeader rest k

/-- Python dict assignment `headers[k] = v`: replace the value when the
key is present, append the pair otherwise. -/
def setHeader : List (String × List Nat) → String → List Nat →
    List (String × List Nat)
  | [], k, v => [(k, v)]
  | kv :: rest, k, v =>
    if kv.1 = k then (k, v) :: rest else kv :: setHeader rest k v

/-- Modelled from the spec: the AuthSigner (`txboto/auth.py`, selected
by `get_auth_handler`, is not under `src/`).  Per the spec its
`add_auth` "mutates a RequestDescriptor in place to add authentication
headers (e.g., HMAC signature, timestamp, session token)", recomputed
on every call; `auths` is the list of authentication headers this
particular call writes. -/
def addAuthHeaders (auths : List (String × List Nat))
    (r : HTTPRequestL) : HTTPRequestL :=
  { r with headers := auths.foldl (fun hs kv => setHeader hs kv.1 kv.2) r.headers }

/-- The bytes of `'chunked'`. -/
def chunkedBytes : List Nat := [99, 104, 117, 110, 107, 101, 100]

/-- `HTTPRequest.authorize` (base/__init__.py lines 125-143): quote all
header values once (guarded by `_headers_quoted`), set `User-Agent`,
invoke the signer, then derive `Content-Length` from the body unless
already present or chunked transfer-encoding is active.  `addAuth`
stands for `connection._auth_handler.add_auth`. -/
def authorize (addAuth : HTTPRequestL → HTTPRequestL)
    (userAgent : List Nat) (r : HTTPRequestL) : HTTPRequestL :=
  let r1 :=
    if r.headersQuoted then r
    else
      { r with
        headers := r.headers.map fun kv => (kv.1, quoteBytes headerSafe kv.2),
        headersQuoted := true }
  let r2 := { r1 with headers := setHeader r1.headers "User-Agent" userAgent }
  let r3 := addAuth r2
  if (lookupHeader r3.headers "Content-Length").isSome then r3
  else if (lookupHeader r3.headers "Transfer-Encoding").isSome &&
      lookupHeader r3.headers "Transfer-Encoding" == some chunkedBytes then r3
  else
    { r3 with
      headers := setHeader r3.headers "Content-Length"
        ((Nat.toDigits 10 r3.body.length).map Char.toNat) }

/-! ## Layer1.batch_get_item (layer1.py lines 338-355) -/

/-- Outcome of `Layer1.batch_get_item`: either the immediate
`return {}` (no `make_request` call at all), or a `make_request` with
the given action and the `{'RequestItems': request_items}` payload
(its `json.dumps` serialization left structural). -/
inductive BatchGetItemResult (α : Type) where
  | immediateEmpty
  | request (action : String) (requestItems : List (String × α))
  deriving Repr, DecidableEq

/-- `Layer1.batch_get_item` (layer1.py lines 338-355): an empty (falsy)
`request_items` dict returns `{}` immediately; otherwise the JSON body
is built and `make_request('BatchGetItem', ...)` is issued. -/
def batch_get_item {α : Type} (requestItems : List (String × α)) :
    BatchGetItemResult α :=
  if requestItems.isEmpty then .immediateEmpty
  else .request "BatchGetItem" requestItems

/-- `Layer1._retry_handler` as wired into `_mexe` through
`retry_handler=self._retry_handler` (layer1.py lines 130-132): the
`response_body` argument of the callback protocol is unused because
`_retry_handler` re-reads `response.read()` itself.  This models the
intended wiring; in the source the call is actually broken
(connection.py lines 379-381 pass four arguments to the
three-parameter `_retry_handler`, a `TypeError` in Python, and
layer1.py line 131 passes a `sender` kwarg `_mexe` lacks), which would
only abort runs earlier, never add attempts. -/
def layer1Handler (validateChecksums : Bool) (maxRetryDelay : Rat) :
    RetryHandlerFn Layer1State :=
  fun st r _b i ns =>
    retryHandler validateChecksums maxRetryDelay defaultNumRetries st r i ns

/-- A retry-handler callback whose returned retry instructions always
advance the loop counter by at least one. -/
def HandlerIncrements {σ : Type} (h : RetryHandlerFn σ) : Prop :=
  ∀ hst r b i ns m i' ns' hst',
    h hst r b i ns = (.ret (some (m, i', ns')), hst') → i + 1 ≤ i'

/-- Concrete connection state before any throughput event, used by the
concrete evaluations below. -/
def st0 : Layer1State :=
  { throughputExceededEvents := 0, providerRenewed := false,
    authHandlerUpdated := false }

/-- A concrete 400 response whose body's `__type` is the
expired-session-token discriminator. -/
def respExpiredToken : Response :=
  { code := 400, status := 400, reason := "Bad Request", location := none,
    crcHeader := none, bodyBytes := [],
    dunderType := some "com.amazon.coral.service#ExpiredTokenException" }

/-- A concrete 200 response carrying an `x-amz-crc32` header that does
not match its body (the CRC-32 of the empty body is 0). -/
def respCrcMismatch : Response :=
  { code := 200, status := 200, reason := "OK", location := none,
    crcHeader := some 123, bodyBytes := [], dunderType := none }

/-- A concrete request with one header whose value contains a space
(byte 32, which is neither always-safe nor in the safe set, so `quote`
escapes it). -/
def reqTest : HTTPRequestL :=
  { method := "POST", headers := [("x-test", [97, 32, 98])],
    headersQuoted := false, body := [] }

/-- A concrete 503 response. -/
def resp503 : Response :=
  { code := 503, status := 503, reason := "", location := none,
    crcHeader := none, bodyBytes := [], dunderType := none }

/-- A concrete 400 response whose body's `__type` is the
provisioned-throughput-exceeded discriminator. -/
def respThroughput : Response :=
  { code := 400, status := 400, reason := "Bad Request", location := none,
    crcHeader := none, bodyBytes := [],
    dunderType := some "ProvisionedThroughputExceededException" }

/-- A throughput-exceeded 400 response that also carries a mismatching
`x-amz-crc32` header (the CRC-32 of the empty body is 0, not 123). -/
def respThroughputCrc : Response :=
  { code := 400, status := 400, reason := "Bad Request", location := none,
    crcHeader := some 123, bodyBytes := [],
    dunderType := some "ProvisionedThroughputExceededException" }

/-- A conditional-check-failed 400 response that also carries a
mismatching `x-amz-crc32` header. -/
def respCcfCrc : Response :=
  { code := 400, status := 400, reason := "Bad Request", location := none,
    crcHeader := some 123, bodyBytes := [],
    dunderType := some "ConditionalCheckFailedException" }

/-- An expired-session-token 400 response that also carries a
mismatching `x-amz-crc32` header. -/
def respExpiredCrc : Response :=
  { code := 400, status := 400, reason := "Bad Request", location := none,
    crcHeader := some 123, bodyBytes := [],
    dunderType := some "com.amazon.coral.service#ExpiredTokenException" }

/-! ## Theorems -/

/-- C2: for every attempt index `i`, the standard backoff delay
`min(random(0,1) * 2^i, maxDelaySeconds)` lies in
`[0, min(2^i, maxDelaySeconds)]`, and the throughput-curve delay of
`_exponential_time` lies in `[0, min(0.05 * 2^i, maxDelaySeconds)]`;
neither delay is negative or exceeds the configured cap. -/
theorem backoff_delay_bounds (r maxd : Rat) (i : Nat)
    (hr0 : 0 ≤ r) (hr1 : r < 1) (hmax : 0 ≤ maxd) :
    (0 ≤ nextSleep r maxd i ∧
      nextSleep r maxd i ≤ min (2 ^ i) maxd ∧
      nextSleep r maxd i ≤ maxd) ∧
    (0 ≤ exponentialTime maxd i ∧
      exponentialTime maxd i ≤ min ((1 / 20 : Rat) * 2 ^ i) maxd ∧
      exponentialTime maxd i ≤ maxd) := by
  have hpow : (0 : Rat) ≤ 2 ^ i := by positivity
  refine ⟨⟨?_, ?_, ?_⟩, ?_⟩
  · exact le_min (mul_nonneg hr0 hpow) hmax
  · exact min_le_min (by nlinarith) le_rfl
  · exact min_le_right _ _
  · unfold exponentialTime
    split
    · refine ⟨le_rfl, le_min (by positivity) hmax, hmax⟩
    · exact ⟨le_min (by positivity) hmax, le_rfl, min_le_right _ _⟩

/-- C2 witness: the bounds evaluated at `r = 1/2`,
`maxd = 60` (the default cap) and `i = 3`. -/
theorem backoff_delay_bounds_witness :
    (0 ≤ nextSleep (1 / 2) defaultMaxRetryDelay 3 ∧
      nextSleep (1 / 2) defaultMaxRetryDelay 3 ≤
        min (2 ^ 3) defaultMaxRetryDelay ∧
      nextSleep (1 / 2) defaultMaxRetryDelay 3 ≤ defaultMaxRetryDelay) ∧
    (0 ≤ exponentialTime defaultMaxRetryDelay 3 ∧
      exponentialTime defaultMaxRetryDelay 3 ≤
        min ((1 / 20 : Rat) * 2 ^ 3) defaultMaxRetryDelay ∧
      exponentialTime defaultMaxRetryDelay 3 ≤ defaultMaxRetryDelay) :=
  backoff_delay_bounds (1 / 2) defaultMaxRetryDelay 3 (by norm_num)
    (by norm_num) (by norm_num [defaultMaxRetryDelay])

/-- C3 counterexample: `_exponential_time` does not equal
`min(0.05 * 2^i, max_retry_delay)` for every `i ≥ 0`; at `i = 0` it
returns `0`, not `min(0.05, 60) = 0.05`. -/
theorem exponentialTime_claim_false :
    ¬ (∀ i : Nat, exponentialTime defaultMaxRetryDelay i =
        min ((1 / 20 : Rat) * 2 ^ i) defaultMaxRetryDelay) := by
  intro h
  have h0 := h 0
  rw [exponentialTime, if_pos rfl] at h0
  rw [min_eq_left (by norm_num [defaultMaxRetryDelay])] at h0
  norm_num at h0

/-- C3 amended: for every attempt index `i ≥ 1` the throughput-exceeded
backoff delay computed by `Layer1._exponential_time` equals
`min(0.05 * 2^i, maxDelaySeconds)`; at `i = 0` it is `0`. -/
theorem exponentialTime_eq_min_of_pos (maxd : Rat) (i : Nat) (h : 1 ≤ i) :
    exponentialTime maxd i = min ((1 / 20 : Rat) * 2 ^ i) maxd := by
  rw [exponentialTime, if_neg (by omega)]

/-- C3 witness: the amended equation at `i = 2` with the default cap. -/
theorem exponentialTime_eq_min_witness :
    exponentialTime defaultMaxRetryDelay 2 =
      min ((1 / 20 : Rat) * 2 ^ 2) defaultMaxRetryDelay :=
  exponentialTime_eq_min_of_pos defaultMaxRetryDelay 2 (by norm_num)

/-- C10: `batch_get_item` with an empty (falsy) `request_items` mapping
returns the empty dict immediately, never reaching `make_request`; a
non-empty mapping issues the `BatchGetItem` request. -/
theorem batch_get_item_empty_shortcut {α : Type}
    (requestItems : List (String × α)) :
    (requestItems = [] → batch_get_item requestItems = .immediateEmpty) ∧
    (requestItems ≠ [] →
      batch_get_item requestItems = .request "BatchGetItem" requestItems) := by
  constructor
  · intro h; subst h; rfl
  · intro h
    rw [batch_get_item, if_neg (by simpa using h)]

/-- C10 witness: the empty mapping short-circuits; a singleton mapping
issues the request. -/
theorem batch_get_item_empty_shortcut_witness :
    batch_get_item ([] : List (String × Nat)) = .immediateEmpty ∧
    batch_get_item [("table", (1 : Nat))] =
      .request "BatchGetItem" [("table", (1 : Nat))] :=
  ⟨(batch_get_item_empty_shortcut []).1 rfl,
   (batch_get_item_empty_shortcut [("table", (1 : Nat))]).2 (by simp)⟩

/-- C6: on a 400 response whose `__type` contains
`ProvisionedThroughputExceededException`, `_retry_handler` increments
the `throughput_exceeded_events` counter; when the incremented attempt
index equals `NumberRetries` it raises
`DynamoDBThroughputExceededError`; otherwise it returns a retry
instruction whose delay comes from the tight backoff curve
`_exponential_time`: `(i + 1, _exponential_time(i))` when the checksum
block does not fire, and — the Python local `i` having already been
incremented by this branch — `(i + 2, _exponential_time(i + 1))` when
a mismatching `x-amz-crc32` header overrides the pending status. -/
theorem throughput_exceeded_handling (vc : Bool) (maxd : Rat)
    (st : Layer1State) (resp : Response) (i : Nat) (ns : Rat) (dt : String)
    (h400 : resp.status = 400) (hdt : resp.dunderType = some dt)
    (hthr : substrIn ThruputError dt = true) :
    (retryHandler vc maxd defaultNumRetries st resp i ns).2.throughputExceededEvents
        = st.throughputExceededEvents + 1 ∧
    (i + 1 = NumberRetries →
      (retryHandler vc maxd defaultNumRetries st resp i ns).1 =
        .throughputExceededError resp.status resp.reason) ∧
    (i + 1 ≠ NumberRetries → crcOverride vc resp = false →
      ∃ m, (retryHandler vc maxd defaultNumRetries st resp i ns).1 =
        .ret (some (m, i + 1, exponentialTime maxd i))) ∧
    (i + 1 ≠ NumberRetries → crcOverride vc resp = true →
      ∃ m, (retryHandler vc maxd defaultNumRetries st resp i ns).1 =
        .ret (some (m, i + 2, exponentialTime maxd (i + 1)))) := by
  by_cases hni : i + 1 = NumberRetries
  · exact ⟨by simp [retryHandler, h400, hdt, hthr, hni],
      fun _ => by simp [retryHandler, h400, hdt, hthr, hni],
      fun h _ => absurd hni h, fun h _ => absurd hni h⟩
  · cases hcrc : resp.crcHeader with
    | none =>
      refine ⟨by simp [retryHandler, h400, hdt, hthr, hni, hcrc],
        fun h => absurd h hni, ?_, ?_⟩
      · exact fun _ _ =>
          ⟨_, by simp [retryHandler, h400, hdt, hthr, hni, hcrc]; rfl⟩
      · intro _ hov
        simp [crcOverride, hcrc] at hov
    | some e =>
      cases vc with
      | false =>
        refine ⟨by simp [retryHandler, h400, hdt, hthr, hni, hcrc],
          fun h => absurd h hni, ?_, ?_⟩
        · exact fun _ _ =>
            ⟨_, by simp [retryHandler, h400, hdt, hthr, hni, hcrc]; rfl⟩
        · intro _ hov
          simp [crcOverride, hcrc] at hov
      | true =>
        by_cases hmis : ((actualCrc32 resp.bodyBytes : Int) ≠ e)
        · refine ⟨by simp [retryHandler, h400, hdt, hthr, hni, hcrc, hmis],
            fun h => absurd h hni, ?_, ?_⟩
          · intro _ hov
            simp [crcOverride, hcrc, hmis] at hov
          · exact fun _ _ =>
              ⟨_, by simp [retryHandler, h400, hdt, hthr, hni, hcrc, hmis]; rfl⟩
        · refine ⟨by simp [retryHandler, h400, hdt, hthr, hni, hcrc, hmis],
            fun h => absurd h hni, ?_, ?_⟩
          · exact fun _ _ =>
              ⟨_, by simp [retryHandler, h400, hdt, hthr, hni, hcrc, hmis]; rfl⟩
          · intro _ hov
            simp [crcOverride, hcrc, hmis] at hov

/-- C6 witness: a throughput-exceeded 400 at attempt 3 increments the
counter and yields a retry at index 4 with delay
`_exponential_time(3)`; the same response with a mismatching checksum
header yields index 5 with delay `_exponential_time(4)`; at attempt 9
(incremented index 10 = `NumberRetries`) it raises
`DynamoDBThroughputExceededError`. -/
theorem throughput_exceeded_handling_witness :
    (retryHandler true 60 defaultNumRetries st0 respThroughput 3 1).2.throughputExceededEvents
        = st0.throughputExceededEvents + 1 ∧
    (∃ m, (retryHandler true 60 defaultNumRetries st0 respThroughput 3 1).1 =
        .ret (some (m, 3 + 1, exponentialTime 60 3))) ∧
    (∃ m, (retryHandler true 60 defaultNumRetries st0 respThroughputCrc 3 1).1 =
        .ret (some (m, 3 + 2, exponentialTime 60 (3 + 1)))) ∧
    (retryHandler true 60 defaultNumRetries st0 respThroughput 9 1).1 =
      .throughputExceededError respThroughput.status respThroughput.reason :=
  ⟨(throughput_exceeded_handling true 60 st0 respThroughput 3 1 _ rfl rfl
      (by decide)).1,
   (throughput_exceeded_handling true 60 st0 respThroughput 3 1 _ rfl rfl
      (by decide)).2.2.1 (by decide) (by decide),
   (throughput_exceeded_handling true 60 st0 respThroughputCrc 3 1 _ rfl rfl
      (by decide)).2.2.2 (by decide) (by decide),
   (throughput_exceeded_handling true 60 st0 respThroughput 9 1 _ rfl rfl
      (by decide)).2.1 (by decide)⟩

/-- C8 counterexample: on an expired-session-token 400 at attempt
index 0, `_retry_handler` returns the retry instruction
`('Renewing Session Token', 0 + 6 - 1, 0)`, i.e. it advances the
attempt index from 0 to 5 with zero delay; against the DynamoDB budget
`NumberRetries = 10` the remaining attempt budget therefore shrinks
from 10 to 5 — it is not extended. -/
theorem session_renewal_budget_not_extended :
    (retryHandler true 60 defaultNumRetries st0 respExpiredToken 0 1).1 =
      .ret (some ("Renewing Session Token", 5, 0)) ∧
    ¬ (NumberRetries - 0 ≤ NumberRetries - 5) := by
  constructor
  · decide
  · decide

/-- C8 amended: on every 400 response whose `__type` contains the
expired-session-token discriminator, `_retry_handler` re-derives the
provider credentials and updates the auth handler; when the checksum
block does not fire it returns the retry instruction
`('Renewing Session Token', i + num_retries - 1, 0)` — zero delay,
attempt index advanced to `i + 5` with the inherited `num_retries = 6`,
reducing the remaining attempt budget — and when a mismatching
`x-amz-crc32` header fires, the checksum block overrides that pending
status with a checksum retry instruction
`(i + 1, _exponential_time(i))`, the renewal side effects having
occurred either way. -/
theorem session_expired_renews_and_advances (vc : Bool) (maxd : Rat)
    (st : Layer1State) (resp : Response) (i : Nat) (ns : Rat) (dt : String)
    (h400 : resp.status = 400) (hdt : resp.dunderType = some dt)
    (hnothr : substrIn ThruputError dt = false)
    (hexp : substrIn SessionExpiredError dt = true) :
    (retryHandler vc maxd defaultNumRetries st resp i ns).2.providerRenewed
        = true ∧
    (retryHandler vc maxd defaultNumRetries st resp i ns).2.authHandlerUpdated
        = true ∧
    (crcOverride vc resp = false →
      (retryHandler vc maxd defaultNumRetries st resp i ns).1 =
        .ret (some ("Renewing Session Token", i + defaultNumRetries - 1, 0))) ∧
    (crcOverride vc resp = true →
      ∃ m, (retryHandler vc maxd defaultNumRetries st resp i ns).1 =
        .ret (some (m, i + 1, exponentialTime maxd i))) := by
  cases hcrc : resp.crcHeader with
  | none =>
    refine ⟨by simp [retryHandler, h400, hdt, hnothr, hexp, hcrc],
      by simp [retryHandler, h400, hdt, hnothr, hexp, hcrc], ?_, ?_⟩
    · exact fun _ => by simp [retryHandler, h400, hdt, hnothr, hexp, hcrc]
    · intro hov
      simp [crcOverride, hcrc] at hov
  | some e =>
    cases vc with
    | false =>
      refine ⟨by simp [retryHandler, h400, hdt, hnothr, hexp, hcrc],
        by simp [retryHandler, h400, hdt, hnothr, hexp, hcrc], ?_, ?_⟩
      · exact fun _ => by simp [retryHandler, h400, hdt, hnothr, hexp, hcrc]
      · intro hov
        simp [crcOverride, hcrc] at hov
    | true =>
      by_cases hmis : ((actualCrc32 resp.bodyBytes : Int) ≠ e)
      · refine ⟨by simp [retryHandler, h400, hdt, hnothr, hexp, hcrc, hmis],
          by simp [retryHandler, h400, hdt, hnothr, hexp, hcrc, hmis],
          ?_, ?_⟩
        · intro hov
          simp [crcOverride, hcrc, hmis] at hov
        · exact fun _ =>
            ⟨_, by simp [retryHandler, h400, hdt, hnothr, hexp, hcrc, hmis]; rfl⟩
      · refine ⟨by simp [retryHandler, h400, hdt, hnothr, hexp, hcrc, hmis],
          by simp [retryHandler, h400, hdt, hnothr, hexp, hcrc, hmis],
          ?_, ?_⟩
        · exact fun _ =>
            by simp [retryHandler, h400, hdt, hnothr, hexp, hcrc, hmis]
        · intro hov
          simp [crcOverride, hcrc, hmis] at hov

/-- C8 amended witness: the session-expired handling evaluated at the
concrete expired-token response (no checksum header) at attempt
index 2, and at the same response carrying a mismatching checksum
header, where the override yields `(3, _exponential_time(2))` while
renewal still occurred. -/
theorem session_expired_renews_witness :
    (retryHandler true 60 defaultNumRetries st0 respExpiredToken 2 1).2.providerRenewed
        = true ∧
    (retryHandler true 60 defaultNumRetries st0 respExpiredToken 2 1).1 =
      .ret (some ("Renewing Session Token", 2 + defaultNumRetries - 1, 0)) ∧
    (retryHandler true 60 defaultNumRetries st0 respExpiredCrc 2 1).2.providerRenewed
        = true ∧
    (∃ m, (retryHandler true 60 defaultNumRetries st0 respExpiredCrc 2 1).1 =
      .ret (some (m, 2 + 1, exponentialTime 60 2))) :=
  ⟨(session_expired_renews_and_advances true 60 st0 respExpiredToken 2 1 _
      rfl rfl (by decide) (by decide)).1,
   (session_expired_renews_and_advances true 60 st0 respExpiredToken 2 1 _
      rfl rfl (by decide) (by decide)).2.2.1 (by decide),
   (session_expired_renews_and_advances true 60 st0 respExpiredCrc 2 1 _
      rfl rfl (by decide) (by decide)).1,
   (session_expired_renews_and_advances true 60 st0 respExpiredCrc 2 1 _
      rfl rfl (by decide) (by decide)).2.2.2 (by decide)⟩

/-! ### Step lemmas for the `_mexe` loop -/

/-- Loop guard false: the code after the while loop runs. -/
theorem mexeGo_guard_false {σ : Type} {c2s : Nat → String}
    {world : Nat → SendOutcome} {rand : Nat → Rat} {maxd : Rat}
    {h? : Option (RetryHandlerFn σ)} {N fuel i : Nat} {hst : σ}
    {resp : Option Response} {body : Option String}
    {ex : Option TransportExnKind} {a : Nat} (h : ¬ i ≤ N) :
    mexeGo c2s world rand maxd h? N fuel i hst resp body ex a =
      mexeExhaust c2s resp body ex a := by
  rw [mexeGo.eq_def, if_neg h]

/-- An unretryable transport exception is re-raised at once. -/
theorem mexeGo_exn_unretryable {σ : Type} {c2s : Nat → String}
    {world : Nat → SendOutcome} {rand : Nat → Rat} {maxd : Rat}
    {h? : Option (RetryHandlerFn σ)} {N fuel i : Nat} {hst : σ}
    {resp : Option Response} {body : Option String}
    {ex : Option TransportExnKind} {a : Nat} {e : TransportExnKind}
    (hi : i ≤ N) (hw : world i = .exn e) (hu : e.isUnretryable = true) :
    mexeGo c2s world rand maxd h? N (fuel + 1) i hst resp body ex a =
      .unretryableRaised e (a + 1) := by
  rw [mexeGo.eq_def, if_pos hi]
  simp [hw, hu]

/-- A retryable transport exception is recorded in `ex` and the loop
proceeds to the next attempt. -/
theorem mexeGo_exn_retryable {σ : Type} {c2s : Nat → String}
    {world : Nat → SendOutcome} {rand : Nat → Rat} {maxd : Rat}
    {h? : Option (RetryHandlerFn σ)} {N fuel i : Nat} {hst : σ}
    {resp : Option Response} {body : Option String}
    {ex : Option TransportExnKind} {a : Nat} {e : TransportExnKind}
    (hi : i ≤ N) (hw : world i = .exn e) (hu : e.isUnretryable = false) :
    mexeGo c2s world rand maxd h? N (fuel + 1) i hst resp body ex a =
      mexeGo c2s world rand maxd h? N fuel (i + 1) hst resp body (some e)
        (a + 1) := by
  rw [mexeGo.eq_def, if_pos hi]
  simp [hw, hu]

/-- With no retry handler, a response falls through to the default
policy: retry on 500/502/503/504 (recording the body), succeed on a
non-3xx or location-less response, and retry (body untouched) on a 3xx
with a `Location` header. -/
theorem mexeGo_resp_nohandler {σ : Type} {c2s : Nat → String}
    {world : Nat → SendOutcome} {rand : Nat → Rat} {maxd : Rat}
    {N fuel i : Nat} {hst : σ} {resp : Option Response}
    {body : Option String} {ex : Option TransportExnKind} {a : Nat}
    {r : Response} {b : String}
    (hi : i ≤ N) (hw : world i = .resp r b) :
    mexeGo c2s world rand maxd (none : Option (RetryHandlerFn σ)) N
        (fuel + 1) i hst resp body ex a =
      (if r.code = 500 ∨ r.code = 502 ∨ r.code = 503 ∨ r.code = 504 then
        mexeGo c2s world rand maxd none N fuel (i + 1) hst (some r) (some b)
          ex (a + 1)
      else if r.code < 300 ∨ 400 ≤ r.code ∨ r.location = none then
        .success r b (a + 1)
      else
        mexeGo c2s world rand maxd none N fuel (i + 1) hst (some r) body ex
          (a + 1)) := by
  rw [mexeGo.eq_def, if_pos hi]
  simp [hw]

/-- With a retry handler that returns a `(msg, i, next_sleep)` status,
the loop `continue`s at the returned counter with the handler's new
state. -/
theorem mexeGo_resp_handler_retry {σ : Type} {c2s : Nat → String}
    {world : Nat → SendOutcome} {rand : Nat → Rat} {maxd : Rat}
    {h : RetryHandlerFn σ} {N fuel i : Nat} {hst hst' : σ}
    {resp : Option Response} {body : Option String}
    {ex : Option TransportExnKind} {a : Nat} {r : Response} {b : String}
    {m : String} {i' : Nat} {ns' : Rat}
    (hi : i ≤ N) (hw : world i = .resp r b)
    (hh : h hst r b i (nextSleep (rand i) maxd i) =
      (.ret (some (m, i', ns')), hst')) :
    mexeGo c2s world rand maxd (some h) N (fuel + 1) i hst resp body ex a =
      mexeGo c2s world rand maxd (some h) N fuel i' hst' (some r) body ex
        (a + 1) := by
  rw [mexeGo.eq_def, if_pos hi]
  simp [hw, hh]

/-- With a retry handler that returns `None`, the default policy runs
with the handler's new state. -/
theorem mexeGo_resp_handler_decline {σ : Type} {c2s : Nat → String}
    {world : Nat → SendOutcome} {rand : Nat → Rat} {maxd : Rat}
    {h : RetryHandlerFn σ} {N fuel i : Nat} {hst hst' : σ}
    {resp : Option Response} {body : Option String}
    {ex : Option TransportExnKind} {a : Nat} {r : Response} {b : String}
    (hi : i ≤ N) (hw : world i = .resp r b)
    (hh : h hst r b i (nextSleep (rand i) maxd i) = (.ret none, hst')) :
    mexeGo c2s world rand maxd (some h) N (fuel + 1) i hst resp body ex a =
      (if r.code = 500 ∨ r.code = 502 ∨ r.code = 503 ∨ r.code = 504 then
        mexeGo c2s world rand maxd (some h) N fuel (i + 1) hst' (some r)
          (some b) ex (a + 1)
      else if r.code < 300 ∨ 400 ≤ r.code ∨ r.location = none then
        .success r b (a + 1)
      else
        mexeGo c2s world rand maxd (some h) N fuel (i + 1) hst' (some r) body
          ex (a + 1)) := by
  rw [mexeGo.eq_def, if_pos hi]
  simp [hw, hh]

/-- With a retry handler that raises, the exception propagates out of
the loop. -/
theorem mexeGo_resp_handler_raise {σ : Type} {c2s : Nat → String}
    {world : Nat → SendOutcome} {rand : Nat → Rat} {maxd : Rat}
    {h : RetryHandlerFn σ} {N fuel i : Nat} {hst hst' : σ}
    {resp : Option Response} {body : Option String}
    {ex : Option TransportExnKind} {a : Nat} {r : Response} {b : String}
    {act : HandlerAction}
    (hi : i ≤ N) (hw : world i = .resp r b)
    (hh : h hst r b i (nextSleep (rand i) maxd i) = (act, hst'))
    (hact : ∀ s, act ≠ .ret s) :
    mexeGo c2s world rand maxd (some h) N (fuel + 1) i hst resp body ex a =
      .handlerRaised act (a + 1) := by
  rw [mexeGo.eq_def, if_pos hi]
  cases act with
  | ret s => exact absurd rfl (hact s)
  | throughputExceededError s rs => simp [hw, hh]
  | conditionalCheckFailedError s rs => simp [hw, hh]
  | validationError s rs => simp [hw, hh]
  | responseError s rs => simp [hw, hh]
  | typeError => simp [hw, hh]

/-- The exhaustion epilogue performs no further attempts and never
diverges. -/
theorem mexeExhaust_spec (c2s : Nat → String) (resp : Option Response)
    (body : Option String) (ex : Option TransportExnKind) (a : Nat) :
    (mexeExhaust c2s resp body ex a).attempts = a ∧
    ∀ a', mexeExhaust c2s resp body ex a ≠ .diverged a' := by
  unfold mexeExhaust
  cases resp with
  | some r => simp [MexeResult.attempts]
  | none => cases ex <;> simp [MexeResult.attempts]

/-- Core bound: provided every retry instruction returned by the
handler advances the loop counter (which holds vacuously with no
handler), the loop started at counter `i` with fuel covering
`N + 1 - i` iterations performs at most `N + 1 - i` further attempts
and never exhausts its fuel. -/
theorem mexeGo_bound {σ : Type} (c2s : Nat → String)
    (world : Nat → SendOutcome) (rand : Nat → Rat) (maxd : Rat)
    (h? : Option (RetryHandlerFn σ)) (N : Nat)
    (hinc : ∀ h, h? = some h → HandlerIncrements h) :
    ∀ (fuel i : Nat) (hst : σ) (resp : Option Response)
      (body : Option String) (ex : Option TransportExnKind) (a : Nat),
      N + 1 ≤ fuel + i →
      (mexeGo c2s world rand maxd h? N fuel i hst resp body ex a).attempts
          ≤ a + (N + 1 - i) ∧
      ∀ a', mexeGo c2s world rand maxd h? N fuel i hst resp body ex a ≠
        .diverged a' := by
  intro fuel
  induction fuel with
  | zero =>
    intro i hst resp body ex a hle
    rw [mexeGo_guard_false (by omega)]
    obtain ⟨h1, h2⟩ := mexeExhaust_spec c2s resp body ex a
    exact ⟨by omega, h2⟩
  | succ fuel ih =>
    intro i hst resp body ex a hle
    by_cases hi : i ≤ N
    · cases hw : world i with
      | exn e =>
        cases hu : e.isUnretryable with
        | false =>
          rw [mexeGo_exn_retryable hi hw hu]
          obtain ⟨h1, h2⟩ := ih (i + 1) hst resp body (some e) (a + 1)
            (by omega)
          exact ⟨le_trans h1 (by omega), h2⟩
        | true =>
          rw [mexeGo_exn_unretryable hi hw hu]
          exact ⟨by simp [MexeResult.attempts]; omega, by simp⟩
      | resp r b =>
        cases h? with
        | none =>
          rw [mexeGo_resp_nohandler hi hw]
          split
          · obtain ⟨h1, h2⟩ := ih (i + 1) hst (some r) (some b) ex (a + 1)
              (by omega)
            exact ⟨le_trans h1 (by omega), h2⟩
          · split
            · exact ⟨by simp [MexeResult.attempts]; omega, by simp⟩
            · obtain ⟨h1, h2⟩ := ih (i + 1) hst (some r) body ex (a + 1)
                (by omega)
              exact ⟨le_trans h1 (by omega), h2⟩
        | some h =>
          have hI : HandlerIncrements h := hinc h rfl
          rcases hres : h hst r b i (nextSleep (rand i) maxd i) with ⟨act, hst'⟩
          cases act with
          | ret s =>
            cases s with
            | none =>
              rw [mexeGo_resp_handler_decline hi hw hres]
              split
              · obtain ⟨h1, h2⟩ := ih (i + 1) hst' (some r) (some b) ex
                  (a + 1) (by omega)
                exact ⟨le_trans h1 (by omega), h2⟩
              · split
                · exact ⟨by simp [MexeResult.attempts]; omega, by simp⟩
                · obtain ⟨h1, h2⟩ := ih (i + 1) hst' (some r) body ex (a + 1)
                    (by omega)
                  exact ⟨le_trans h1 (by omega), h2⟩
            | some t =>
              obtain ⟨m, i', ns'⟩ := t
              rw [mexeGo_resp_handler_retry hi hw hres]
              have hii : i + 1 ≤ i' := hI hst r b i _ m i' ns' hst' hres
              obtain ⟨h1, h2⟩ := ih i' hst' (some r) body ex (a + 1) (by omega)
              exact ⟨le_trans h1 (by omega), h2⟩
          | throughputExceededError s rs =>
            rw [mexeGo_resp_handler_raise hi hw hres (by simp)]
            exact ⟨by simp [MexeResult.attempts]; omega, by simp⟩
          | conditionalCheckFailedError s rs =>
            rw [mexeGo_resp_handler_raise hi hw hres (by simp)]
            exact ⟨by simp [MexeResult.attempts]; omega, by simp⟩
          | validationError s rs =>
            rw [mexeGo_resp_handler_raise hi hw hres (by simp)]
            exact ⟨by simp [MexeResult.attempts]; omega, by simp⟩
          | responseError s rs =>
            rw [mexeGo_resp_handler_raise hi hw hres (by simp)]
            exact ⟨by simp [MexeResult.attempts]; omega, by simp⟩
          | typeError =>
            rw [mexeGo_resp_handler_raise hi hw hres (by simp)]
            exact ⟨by simp [MexeResult.attempts]; omega, by simp⟩
    · rw [mexeGo_guard_false hi]
      obtain ⟨h1, h2⟩ := mexeExhaust_spec c2s resp body ex a
      exact ⟨by omega, h2⟩

/-- C1: for every attempt budget `N ≥ 0` and every sequence of
responses and retryable transport errors, the `_mexe` loop performs at
most `N + 1` authorize-and-send attempts before terminating by
returning or raising. -/
theorem mexe_attempts_le_budget (c2s : Nat → String)
    (world : Nat → SendOutcome) (rand : Nat → Rat) (maxd : Rat) (N : Nat) :
    (mexe c2s world rand maxd N).attempts ≤ N + 1 ∧
    ∀ a, mexe c2s world rand maxd N ≠ .diverged a := by
  obtain ⟨h1, h2⟩ := mexeGo_bound c2s world rand maxd
    (none : Option (RetryHandlerFn Unit)) N (fun h hh => by cases hh)
    (N + 1) 0 () none none none 0 (by omega)
  rw [mexe]
  exact ⟨by simpa using h1, h2⟩

/-- C4: an exception of the unretryable transport class (SSL error,
certificate error, verify error — and exactly those) is re-raised
immediately with zero additional attempts regardless of remaining
budget, while a retryable transport exception is recorded in `ex` and
the loop proceeds to the next attempt. -/
theorem unretryable_aborts_retryable_retried :
    (∀ (σ : Type) (c2s : Nat → String) (world : Nat → SendOutcome)
       (rand : Nat → Rat) (maxd : Rat) (h? : Option (RetryHandlerFn σ))
       (N fuel i : Nat) (hst : σ) (resp : Option Response)
       (body : Option String) (ex : Option TransportExnKind) (a : Nat)
       (e : TransportExnKind),
       i ≤ N → world i = .exn e → e.isUnretryable = true →
       mexeGo c2s world rand maxd h? N (fuel + 1) i hst resp body ex a =
         .unretryableRaised e (a + 1)) ∧
    (∀ (σ : Type) (c2s : Nat → String) (world : Nat → SendOutcome)
       (rand : Nat → Rat) (maxd : Rat) (h? : Option (RetryHandlerFn σ))
       (N fuel i : Nat) (hst : σ) (resp : Option Response)
       (body : Option String) (ex : Option TransportExnKind) (a : Nat)
       (e : TransportExnKind),
       i ≤ N → world i = .exn e → e.isUnretryable = false →
       mexeGo c2s world rand maxd h? N (fuel + 1) i hst resp body ex a =
         mexeGo c2s world rand maxd h? N fuel (i + 1) hst resp body (some e)
           (a + 1)) ∧
    (∀ e : TransportExnKind, e.isUnretryable = true ↔
       e = .sslError ∨ e = .certificateError ∨ e = .verifyError) := by
  refine ⟨?_, ?_, fun e => by cases e <;> simp [TransportExnKind.isUnretryable]⟩
  · intro σ c2s world rand maxd h? N fuel i hst resp body ex a e hi hw hu
    exact mexeGo_exn_unretryable hi hw hu
  · intro σ c2s world rand maxd h? N fuel i hst resp body ex a e hi hw hu
    exact mexeGo_exn_retryable hi hw hu

/-- C4 witness: a certificate-validation failure on the very first
attempt of a budget-3 run aborts after that one attempt; a timeout on
the first attempt is recorded and the loop moves to attempt 1. -/
theorem unretryable_aborts_witness :
    mexeGo (fun _ => "N/A") (fun _ => SendOutcome.exn .certificateError)
        (fun _ => 0) 60 (none : Option (RetryHandlerFn Unit)) 3 4 0 ()
        none none none 0 = .unretryableRaised .certificateError 1 ∧
    mexeGo (fun _ => "N/A") (fun _ => SendOutcome.exn .timeoutError)
        (fun _ => 0) 60 (none : Option (RetryHandlerFn Unit)) 3 4 0 ()
        none none none 0 =
      mexeGo (fun _ => "N/A") (fun _ => SendOutcome.exn .timeoutError)
        (fun _ => 0) 60 (none : Option (RetryHandlerFn Unit)) 3 3 1 ()
        none none (some .timeoutError) 1 :=
  ⟨unretryable_aborts_retryable_retried.1 Unit (fun _ => "N/A")
      (fun _ => SendOutcome.exn .certificateError) (fun _ => 0) 60 none 3 3 0
      () none none none 0 .certificateError (by omega) rfl rfl,
   unretryable_aborts_retryable_retried.2.1 Unit (fun _ => "N/A")
      (fun _ => SendOutcome.exn .timeoutError) (fun _ => 0) 60 none 3 3 0
      () none none none 0 .timeoutError (by omega) rfl rfl⟩

/-- Helper: a run whose every attempt yields a 503 response ends, once
the counter passes the budget, in `BotoServerError` carrying the last
response's status, its `code2status` reason, and its body. -/
theorem mexeGo_all503 (c2s : Nat → String) (world : Nat → SendOutcome)
    (rand : Nat → Rat) (maxd : Rat) (N : Nat) (rf : Nat → Response)
    (bf : Nat → String)
    (hw : ∀ j, j ≤ N → world j = .resp (rf j) (bf j))
    (hc : ∀ j, j ≤ N → (rf j).code = 503) :
    ∀ (fuel i : Nat) (resp : Option Response) (body : Option String)
      (ex : Option TransportExnKind) (a : Nat),
      fuel + i = N + 1 → i ≤ N →
      mexeGo c2s world rand maxd (none : Option (RetryHandlerFn Unit)) N
          fuel i () resp body ex a =
        .serverError (rf N).status (c2s (rf N).code) (some (bf N))
          (a + fuel) := by
  intro fuel
  induction fuel with
  | zero => intro i resp body ex a hfi hi; omega
  | succ fuel ih =>
    intro i resp body ex a hfi hi
    rw [mexeGo_resp_nohandler hi (hw i hi),
      if_pos (Or.inr (Or.inr (Or.inl (hc i hi))))]
    by_cases hi' : i + 1 ≤ N
    · rw [ih (i + 1) (some (rf i)) (some (bf i)) ex (a + 1) (by omega) hi']
      congr 1
      omega
    · have hiN : i = N := by omega
      have hf0 : fuel = 0 := by omega
      subst hiN hf0
      rw [mexeGo_guard_false (by omega)]
      rfl

/-- Helper: a run whose every attempt yields a retryable transport
exception ends by re-raising the last captured exception. -/
theorem mexeGo_allExn (c2s : Nat → String) (world : Nat → SendOutcome)
    (rand : Nat → Rat) (maxd : Rat) (N : Nat) (ef : Nat → TransportExnKind)
    (hw : ∀ j, j ≤ N → world j = .exn (ef j))
    (hr : ∀ j, j ≤ N → (ef j).isUnretryable = false) :
    ∀ (fuel i : Nat) (body : Option String)
      (ex : Option TransportExnKind) (a : Nat),
      fuel + i = N + 1 → i ≤ N →
      mexeGo c2s world rand maxd (none : Option (RetryHandlerFn Unit)) N
          fuel i () none body ex a =
        .transportRaised (ef N) (a + fuel) := by
  intro fuel
  induction fuel with
  | zero => intro i body ex a hfi hi; omega
  | succ fuel ih =>
    intro i body ex a hfi hi
    rw [mexeGo_exn_retryable hi (hw i hi) (hr i hi)]
    by_cases hi' : i + 1 ≤ N
    · rw [ih (i + 1) body (some (ef i)) (a + 1) (by omega) hi']
      congr 1
      omega
    · have hiN : i = N := by omega
      have hf0 : fuel = 0 := by omega
      subst hiN hf0
      rw [mexeGo_guard_false (by omega)]
      rfl

/-- C5: with every attempt up to budget exhaustion receiving a 503
response, `_mexe` raises `BotoServerError` with the last response's
status, reason and body; with only retryable transport exceptions and
no response ever received, the captured exception is re-raised; with
neither a response nor an exception on hand, the generic
`BotoClientError` is raised. -/
theorem exhaustion_raises :
    (∀ (c2s : Nat → String) (world : Nat → SendOutcome) (rand : Nat → Rat)
       (maxd : Rat) (N : Nat) (rf : Nat → Response) (bf : Nat → String),
       (∀ j, j ≤ N → world j = .resp (rf j) (bf j)) →
       (∀ j, j ≤ N → (rf j).code = 503) →
       mexe c2s world rand maxd N =
         .serverError (rf N).status (c2s (rf N).code) (some (bf N))
           (N + 1)) ∧
    (∀ (c2s : Nat → String) (world : Nat → SendOutcome) (rand : Nat → Rat)
       (maxd : Rat) (N : Nat) (ef : Nat → TransportExnKind),
       (∀ j, j ≤ N → world j = .exn (ef j)) →
       (∀ j, j ≤ N → (ef j).isUnretryable = false) →
       mexe c2s world rand maxd N = .transportRaised (ef N) (N + 1)) ∧
    (∀ (c2s : Nat → String) (body : Option String) (a : Nat),
       mexeExhaust c2s none body none a = .clientError a) := by
  refine ⟨?_, ?_, fun _ _ _ => rfl⟩
  · intro c2s world rand maxd N rf bf hw hc
    rw [mexe, mexeGo_all503 c2s world rand maxd N rf bf hw hc (N + 1) 0
      none none none 0 (by omega) (by omega)]
    congr 1
    omega
  · intro c2s world rand maxd N ef hw hr
    rw [mexe, mexeGo_allExn c2s world rand maxd N ef hw hr (N + 1) 0
      none none 0 (by omega) (by omega)]
    congr 1
    omega

/-- C5 witness: with budget 1, two 503 responses end in
`BotoServerError(503, 'N/A', body)` after 2 attempts; two connection
losses end in re-raising the captured exception; the defensive branch
yields `BotoClientError`. -/
theorem exhaustion_raises_witness :
    mexe (fun _ => "N/A") (fun _ => SendOutcome.resp resp503 "unavailable")
        (fun _ => 0) 60 1 =
      .serverError resp503.status "N/A" (some "unavailable") 2 ∧
    mexe (fun _ => "N/A") (fun _ => SendOutcome.exn .connectionLost)
        (fun _ => 0) 60 1 = .transportRaised .connectionLost 2 ∧
    mexeExhaust (fun _ => "N/A") none none none 5 = .clientError 5 :=
  ⟨exhaustion_raises.1 (fun _ => "N/A")
      (fun _ => SendOutcome.resp resp503 "unavailable") (fun _ => 0) 60 1
      (fun _ => resp503) (fun _ => "unavailable") (fun _ _ => rfl)
      (fun _ _ => rfl),
   exhaustion_raises.2.1 (fun _ => "N/A")
      (fun _ => SendOutcome.exn .connectionLost) (fun _ => 0) 60 1
      (fun _ => .connectionLost) (fun _ _ => rfl) (fun _ _ => rfl),
   exhaustion_raises.2.2 (fun _ => "N/A") none 5⟩

/-- Every retry instruction `Layer1._retry_handler` returns advances
the attempt counter: the throughput branch and the checksum branch
return `i + 1`, the session-renewal branch `i + 5` (with the inherited
`num_retries = 6`). -/
theorem layer1Handler_increments (vc : Bool) (maxd : Rat) :
    HandlerIncrements (layer1Handler vc maxd) := by
  intro hst r b i ns m i' ns' hst' hres
  unfold layer1Handler retryHandler at hres
  by_cases h400 : r.status = 400
  · cases hdt : r.dunderType with
    | none => simp [h400, hdt] at hres
    | some dt =>
      by_cases hthr : substrIn ThruputError dt
      · by_cases hni : i + 1 = NumberRetries
        · simp [h400, hdt, hthr, hni] at hres
        · cases hcrc : r.crcHeader with
          | none =>
            simp [h400, hdt, hthr, hni, hcrc] at hres
            omega
          | some e =>
            cases vc with
            | false =>
              simp [h400, hdt, hthr, hni, hcrc] at hres
              omega
            | true =>
              by_cases hmis : (actualCrc32 r.bodyBytes : Int) ≠ e
              · simp [h400, hdt, hthr, hni, hcrc, hmis] at hres
                omega
              · simp [h400, hdt, hthr, hni, hcrc, hmis] at hres
                omega
      · by_cases hexp : substrIn SessionExpiredError dt
        · cases hcrc : r.crcHeader with
          | none =>
            simp [h400, hdt, hthr, hexp, hcrc, defaultNumRetries] at hres
            omega
          | some e =>
            cases vc with
            | false =>
              simp [h400, hdt, hthr, hexp, hcrc, defaultNumRetries] at hres
              omega
            | true =>
              by_cases hmis : (actualCrc32 r.bodyBytes : Int) ≠ e
              · simp [h400, hdt, hthr, hexp, hcrc, hmis] at hres
                omega
              · simp [h400, hdt, hthr, hexp, hcrc, hmis,
                  defaultNumRetries] at hres
                omega
        · by_cases hccf : substrIn ConditionalCheckFailedError dt
          · simp [h400, hdt, hthr, hexp, hccf] at hres
          · by_cases hval : substrIn ValidationError dt
            · simp [h400, hdt, hthr, hexp, hccf, hval] at hres
            · simp [h400, hdt, hthr, hexp, hccf, hval] at hres
  · cases hcrc : r.crcHeader with
    | none => simp [h400, hcrc] at hres
    | some e =>
      cases vc with
      | false => simp [h400, hcrc] at hres
      | true =>
        by_cases hmis : (actualCrc32 r.bodyBytes : Int) ≠ e
        · simp [h400, hcrc, hmis] at hres
          omega
        · simp [h400, hcrc, hmis] at hres

/-- C7 counterexample: checksum validation does not run regardless of
the response's status code, and a mismatch does not always cost
exactly one additional attempt.  With validation enabled and a
mismatching `x-amz-crc32` header: on a 400 whose `__type` is the
conditional-check-failed discriminator the classifier raises without
ever comparing checksums (raising 400 branches return before the
checksum block), and on a throughput-exceeded 400 at attempt index 3
it returns a retry instruction at index 5 = i + 2 (the Python local
`i` was already incremented), never one at the claimed index
i + 1 = 4. -/
theorem checksum_claim_false :
    (retryHandler true 60 defaultNumRetries st0 respCcfCrc 3 1).1 =
      .conditionalCheckFailedError 400 "Bad Request" ∧
    (∃ d, (retryHandler true 60 defaultNumRetries st0 respThroughputCrc 3 1).1 =
      .ret (some ("The calculated checksum 0 did not match the expected checksum 123",
        5, d))) ∧
    (∀ (m : String) (d : Rat),
      (retryHandler true 60 defaultNumRetries st0 respThroughputCrc 3 1).1 ≠
        .ret (some (m, 3 + 1, d))) := by
  refine ⟨by decide, ⟨_, rfl⟩, ?_⟩
  intro m d h
  have h5 := congrArg
    (fun a => match a with
      | HandlerAction.ret (some (_, j, _)) => j
      | _ => 0) h
  have h5' : (5 : Nat) = 3 + 1 := h5
  exact absurd h5' (by decide)

/-- C7 amended: with checksum validation enabled, whenever the
response survives the 400 classifier without raising, the classifier
compares the body's CRC-32 (masked to 32 bits) against a present
`x-amz-crc32` header — in particular on otherwise-successful 200
responses — and on mismatch returns a retry instruction advancing the
attempt index by one past the classifier's local index:
`(i + 1, _exponential_time(i))` for a non-400 response,
`(i + 2, _exponential_time(i + 1))` for a non-final
throughput-exceeded 400 (whose branch already incremented the local
index); every retry instruction the Layer1 handler returns advances
the attempt counter, so `_mexe` driven by it performs at most `N + 1`
attempts — mismatches stay bounded by the attempt budget instead of
looping forever. -/
theorem checksum_mismatch_bounded_retry :
    (∀ (maxd : Rat) (nra : Nat) (st : Layer1State) (resp : Response)
       (i : Nat) (ns : Rat) (e : Int),
       resp.status ≠ 400 → resp.crcHeader = some e →
       (actualCrc32 resp.bodyBytes : Int) ≠ e →
       ∃ m, (retryHandler true maxd nra st resp i ns).1 =
         .ret (some (m, i + 1, exponentialTime maxd i))) ∧
    (∀ (maxd : Rat) (nra : Nat) (st : Layer1State) (resp : Response)
       (i : Nat) (ns : Rat) (dt : String) (e : Int),
       resp.status = 400 → resp.dunderType = some dt →
       substrIn ThruputError dt = true → i + 1 ≠ NumberRetries →
       resp.crcHeader = some e →
       (actualCrc32 resp.bodyBytes : Int) ≠ e →
       ∃ m, (retryHandler true maxd nra st resp i ns).1 =
         .ret (some (m, i + 2, exponentialTime maxd (i + 1)))) ∧
    (∀ (c2s : Nat → String) (world : Nat → SendOutcome) (rand : Nat → Rat)
       (maxd : Rat) (vc : Bool) (N : Nat) (st : Layer1State),
       (mexeH c2s world rand maxd (layer1Handler vc maxd) st N).attempts
           ≤ N + 1 ∧
       ∀ a, mexeH c2s world rand maxd (layer1Handler vc maxd) st N ≠
         .diverged a) := by
  refine ⟨?_, ?_, ?_⟩
  · intro maxd nra st resp i ns e h400 hcrc hmis
    exact ⟨_, by simp [retryHandler, h400, hcrc, hmis]; rfl⟩
  · intro maxd nra st resp i ns dt e h400 hdt hthr hni hcrc hmis
    exact ⟨_, by simp [retryHandler, h400, hdt, hthr, hni, hcrc, hmis]; rfl⟩
  · intro c2s world rand maxd vc N st
    obtain ⟨h1, h2⟩ := mexeGo_bound c2s world rand maxd
      (some (layer1Handler vc maxd)) N
      (fun h hh => by cases hh; exact layer1Handler_increments vc maxd)
      (N + 1) 0 st none none none 0 (by omega)
    rw [mexeH]
    exact ⟨by simpa using h1, h2⟩

/-- C7 amended witness: a 200 response with checksum header 123 over an
empty body (whose CRC-32 is 0) yields a retry at index 3 from attempt 2
with delay `_exponential_time(2)`; a non-final throughput 400 with the
same mismatching header at attempt 3 yields index 5 with delay
`_exponential_time(4)`; the loop driven by the Layer1 handler with
budget 2 stays within 3 attempts. -/
theorem checksum_mismatch_bounded_retry_witness :
    (∃ m, (retryHandler true 60 10 st0 respCrcMismatch 2 1).1 =
      .ret (some (m, 2 + 1, exponentialTime 60 2))) ∧
    (∃ m, (retryHandler true 60 defaultNumRetries st0 respThroughputCrc 3 1).1 =
      .ret (some (m, 3 + 2, exponentialTime 60 (3 + 1)))) ∧
    ((mexeH (fun _ => "N/A") (fun _ => SendOutcome.resp respCrcMismatch "x")
        (fun _ => 0) 60 (layer1Handler true 60) st0 2).attempts ≤ 2 + 1 ∧
      ∀ a, mexeH (fun _ => "N/A")
        (fun _ => SendOutcome.resp respCrcMismatch "x") (fun _ => 0) 60
        (layer1Handler true 60) st0 2 ≠ .diverged a) :=
  ⟨checksum_mismatch_bounded_retry.1 60 10 st0 respCrcMismatch 2 1 123
      (by decide) rfl (by decide),
   checksum_mismatch_bounded_retry.2.1 60 defaultNumRetries st0
      respThroughputCrc 3 1 _ 123 rfl rfl (by decide) (by decide) rfl
      (by decide),
   checksum_mismatch_bounded_retry.2.2 (fun _ => "N/A")
      (fun _ => SendOutcome.resp respCrcMismatch "x") (fun _ => 0) 60 true 2
      st0⟩

/-! ### Header-dictionary lemmas for `authorize` -/

/-- Looking up a key after mapping a function over all header values
applies the function to the looked-up value. -/
theorem lookupHeader_map_value (hs : List (String × List Nat)) (k : String)
    (f : List Nat → List Nat) :
    lookupHeader (hs.map fun kv => (kv.1, f kv.2)) k =
      (lookupHeader hs k).map f := by
  induction hs with
  | nil => rfl
  | cons kv rest ih =>
    by_cases h : kv.1 = k
    · simp [lookupHeader, h]
    · simp [lookupHeader, h, ih]

/-- Setting one header key leaves lookups of other keys unchanged. -/
theorem lookupHeader_setHeader_ne (hs : List (String × List Nat))
    (k k' : String) (v : List Nat) (h : k ≠ k') :
    lookupHeader (setHeader hs k' v) k = lookupHeader hs k := by
  induction hs with
  | nil => simp [setHeader, lookupHeader, Ne.symm h]
  | cons kv rest ih =>
    by_cases hh : kv.1 = k'
    · have : kv.1 ≠ k := by rw [hh]; exact Ne.symm h
      simp [setHeader, hh, lookupHeader, Ne.symm h, this]
    · simp [setHeader, hh, lookupHeader, ih]

/-- Folding the signer's header writes over the dictionary leaves
lookups of keys it does not write unchanged. -/
theorem lookupHeader_foldl_set (auths : List (String × List Nat))
    (k : String) (hk : k ∉ auths.map Prod.fst) :
    ∀ hs, lookupHeader
        (auths.foldl (fun hs kv => setHeader hs kv.1 kv.2) hs) k =
      lookupHeader hs k := by
  induction auths with
  | nil => intro hs; rfl
  | cons kv rest ih =>
    intro hs
    simp only [List.map_cons, List.mem_cons, not_or] at hk
    rw [List.foldl_cons, ih hk.2, lookupHeader_setHeader_ne _ _ _ _ hk.1]

/-- After any `authorize` call the `_headers_quoted` flag is set. -/
theorem authorize_headersQuoted (auths : List (String × List Nat))
    (ua : List Nat) (r : HTTPRequestL) :
    (authorize (addAuthHeaders auths) ua r).headersQuoted = true := by
  unfold authorize addAuthHeaders
  cases hq : r.headersQuoted <;> simp [hq] <;> split <;> try split
  all_goals simp [hq]

/-- One `authorize` call quotes the value of a pre-existing header key
(not `User-Agent`, not `Content-Length`, not written by the signer)
exactly when the `_headers_quoted` flag was still unset, and leaves it
untouched otherwise. -/
theorem authorize_lookup (auths : List (String × List Nat)) (ua : List Nat)
    (r : HTTPRequestL) (k : String)
    (hua : k ≠ "User-Agent") (hcl : k ≠ "Content-Length")
    (hk : k ∉ auths.map Prod.fst) :
    lookupHeader (authorize (addAuthHeaders auths) ua r).headers k =
      if r.headersQuoted then lookupHeader r.headers k
      else (lookupHeader r.headers k).map (quoteBytes headerSafe) := by
  unfold authorize addAuthHeaders
  cases hq : r.headersQuoted with
  | true =>
    simp only [hq, ite_true]
    split
    · rw [lookupHeader_foldl_set auths k hk,
        lookupHeader_setHeader_ne _ _ _ _ hua]
    · split
      · rw [lookupHeader_foldl_set auths k hk,
          lookupHeader_setHeader_ne _ _ _ _ hua]
      · rw [lookupHeader_setHeader_ne _ _ _ _ hcl,
          lookupHeader_foldl_set auths k hk,
          lookupHeader_setHeader_ne _ _ _ _ hua]
  | false =>
    simp only [hq, Bool.false_eq_true, ite_false]
    split
    · rw [lookupHeader_foldl_set auths k hk,
        lookupHeader_setHeader_ne _ _ _ _ hua, lookupHeader_map_value]
    · split
      · rw [lookupHeader_foldl_set auths k hk,
          lookupHeader_setHeader_ne _ _ _ _ hua, lookupHeader_map_value]
      · rw [lookupHeader_setHeader_ne _ _ _ _ hcl,
          lookupHeader_foldl_set auths k hk,
          lookupHeader_setHeader_ne _ _ _ _ hua, lookupHeader_map_value]

/-- C9: re-authorizing a request does not double-percent-encode header
values: a header present before the first `authorize` call holds its
once-quoted value after one call, still holds exactly that value after
a second call with fresh signature headers, and more generally any
`authorize` call on a request whose `_headers_quoted` flag is already
set leaves such a header untouched. -/
theorem authorize_no_double_encoding (r : HTTPRequestL)
    (auths1 auths2 : List (String × List Nat)) (ua1 ua2 : List Nat)
    (k : String) (v : List Nat)
    (hq : r.headersQuoted = false)
    (hk : lookupHeader r.headers k = some v)
    (hua : k ≠ "User-Agent") (hcl : k ≠ "Content-Length")
    (h1 : k ∉ auths1.map Prod.fst) (h2 : k ∉ auths2.map Prod.fst) :
    lookupHeader (authorize (addAuthHeaders auths1) ua1 r).headers k =
      some (quoteBytes headerSafe v) ∧
    lookupHeader (authorize (addAuthHeaders auths2) ua2
        (authorize (addAuthHeaders auths1) ua1 r)).headers k =
      some (quoteBytes headerSafe v) ∧
    (∀ (s : HTTPRequestL) (auths : List (String × List Nat)) (ua : List Nat),
      s.headersQuoted = true → k ∉ auths.map Prod.fst →
      lookupHeader (authorize (addAuthHeaders auths) ua s).headers k =
        lookupHeader s.headers k) := by
  have hfirst :
      lookupHeader (authorize (addAuthHeaders auths1) ua1 r).headers k =
        some (quoteBytes headerSafe v) := by
    rw [authorize_lookup auths1 ua1 r k hua hcl h1, hq, if_neg (by simp), hk]
    rfl
  refine ⟨hfirst, ?_, ?_⟩
  · rw [authorize_lookup auths2 ua2 _ k hua hcl h2,
      authorize_headersQuoted auths1 ua1 r, if_pos rfl, hfirst]
  · intro s auths ua hsq hks
    rw [authorize_lookup auths ua s k hua hcl hks, hsq, if_pos rfl]

/-- C9 witness: the header value `a b` (bytes `[97, 32, 98]`) becomes
`a%20b` (bytes `[97, 37, 50, 48, 98]`) after the first `authorize` call
and is exactly that — not `a%2520b` — after a second call with a fresh
signature header. -/
theorem authorize_no_double_encoding_witness :
    lookupHeader (authorize (addAuthHeaders [("Authorization", [66])]) [85]
        (authorize (addAuthHeaders [("Authorization", [65])]) [85]
          reqTest)).headers "x-test" = some [97, 37, 50, 48, 98] := by
  have h := authorize_no_double_encoding reqTest [("Authorization", [65])]
    [("Authorization", [66])] [85] [85] "x-test" [97, 32, 98] rfl rfl
    (by decide) (by decide) (by decide) (by decide)
  rw [h.2.1]
  decide

end TxBoto
